import Mathlib

/-!
Verification of the OmniReach AI dashboard frontend (React + axios client).

Each definition below is a shallow embedding of a concrete handler or helper
from the repository sources; comments name the source file and function.
HTTP calls are modelled by the list of requests a handler emits, toasts and
console logs by an `Effect` list, and the awaited response by an `Outcome`
parameter (success or failure of the request).
-/

namespace OmniReach

/-! JavaScript string primitives used by the handlers.

`jsTrim` models `String.prototype.trim` (whitespace stripped from both ends)
and `jsSplit` models `String.prototype.split` with a single-character
separator, as used by the CSV import and reply handlers. -/

def isJsWhitespace (c : Char) : Bool :=
  c = ' ' || c = '\n' || c = '\t' || c = '\r'

def jsTrim (s : String) : String :=
  ⟨((s.data.dropWhile isJsWhitespace).reverse.dropWhile isJsWhitespace).reverse⟩

def splitChars (sep : Char) : List Char → List (List Char)
  | [] => [[]]
  | c :: rest =>
    match splitChars sep rest with
    | [] => [[]]
    | g :: gs => if c = sep then [] :: g :: gs else (c :: g) :: gs

def jsSplit (sep : Char) (s : String) : List String :=
  (splitChars sep s.data).map String.mk

/-- `startsWithChars cs pre` is true iff `pre` is an initial segment of `cs`. -/
def startsWithChars : List Char → List Char → Bool
  | _, [] => true
  | [], _ :: _ => false
  | c :: cs, d :: ds => c == d && startsWithChars cs ds

def pathStartsWith (p pre : String) : Bool :=
  startsWithChars p.data pre.data

/-! CSV lead import.

Source: `LeadsPage.handleImport` (App.js, main copy lines 571-588, and the
identical legacy copy).  JS:
  const lines = importText.trim().split('\n');
  const leads = lines.slice(1).map(line => {
    const [name, email, linkedin_url, company, title] = line.split(',').map(s => s.trim());
    return { name, email, linkedin_url, company, title };
  }).filter(lead => lead.name);
A missing field (short row) destructures to `undefined`, which is modelled as
`""`; both are falsy for the `lead.name` filter, so the filter agrees. -/

structure ImportLead where
  name : String
  email : String
  linkedin_url : String
  company : String
  title : String
deriving DecidableEq, Repr

def parseImportRow (line : String) : ImportLead :=
  let parts := (jsSplit ',' line).map jsTrim
  { name := parts.getD 0 ""
    email := parts.getD 1 ""
    linkedin_url := parts.getD 2 ""
    company := parts.getD 3 ""
    title := parts.getD 4 "" }

/-- The rows `handleImport` posts to `/leads/import`, from the source:
the whole text is first trimmed, then split on newlines, the first line is
dropped, each row parsed positionally and rows with falsy name removed. -/
def handleImportRows (importText : String) : List ImportLead :=
  let lines := jsSplit '\n' (jsTrim importText)
  ((lines.drop 1).map parseImportRow).filter (fun lead => lead.name ≠ "")

/-- Modelled from the words of claim C8 (no whole-text trim): the rows
obtained by dropping the first line of the import text, splitting each
remaining line on commas with fields trimmed and mapped positionally,
keeping precisely the rows whose name field is non-empty, in input order. -/
def specImportRows (importText : String) : List ImportLead :=
  (((jsSplit '\n' importText).drop 1).map parseImportRow).filter
    (fun lead => lead.name ≠ "")

/-! Lead selection toggle.

Source: `LeadsAssigner.toggleLead` (CampaignBuilder, both copies) and
`OverviewTab.toggleLead` (CampaignBuilderV2.js lines 208-214).  JS:
  setSelectedLeads(prev =>
    prev.includes(leadId)
      ? prev.filter(id => id !== leadId)
      : [...prev, leadId]); -/

def toggleLead (prev : List String) (leadId : String) : List String :=
  if prev.contains leadId then prev.filter (fun id => id != leadId)
  else prev ++ [leadId]

/-! Grouping review messages by lead.

Source: `ReviewMessagesTab.messagesByLead`
(CampaignBuilderV2_Components, lines 523-529).  JS:
  const messagesByLead = messages.reduce((acc, msg) => {
    if (!acc[msg.lead_id]) { acc[msg.lead_id] = []; }
    acc[msg.lead_id].push(msg);
    return acc;
  }, {});
A JS object with string (uuid) keys enumerates keys in insertion order, so
the accumulator is modelled as an association list in which a new key is
appended at the end and an existing key has the message pushed onto its
group.  Only `lead_id` is inspected; the remaining message fields travel
along opaquely. -/

structure Message where
  id : String
  lead_id : String
  step_number : Nat
  content : String
deriving DecidableEq, Repr

def insertMsg (acc : List (String × List Message)) (m : Message) :
    List (String × List Message) :=
  match acc with
  | [] => [(m.lead_id, [m])]
  | (k, g) :: rest =>
    if k = m.lead_id then (k, g ++ [m]) :: rest
    else (k, g) :: insertMsg rest m

def messagesByLead (msgs : List Message) : List (String × List Message) :=
  msgs.foldl insertMsg []

/-- Lookup of the group stored under key `k` (the read side of `acc[k]`). -/
def groupOf (acc : List (String × List Message)) (k : String) : List Message :=
  match acc with
  | [] => []
  | (k', g) :: rest => if k' = k then g else groupOf rest k

/-! Outcomes and user-visible effects.

The awaited HTTP response of a handler is a parameter: `success` means the
promise resolved, `failure` that it threw and control reached the catch
branch.  Effects record toasts, console logs, navigation, the `onUpdate`
callback and re-fetch / set-state-from-response actions, in program order. -/

inductive Outcome
  | success
  | failure
deriving DecidableEq, Repr

inductive Effect
  | toastSuccess (msg : String)
  | toastError (msg : String)
  | consoleError (msg : String)
  | setFromResponse (field : String)
  | callOnUpdate
  | navigateTo (path : String)
  | refetch (what : String)
deriving DecidableEq, Repr

def isToast : Effect → Bool
  | .toastSuccess _ => true
  | .toastError _ => true
  | _ => false

/-! Session check of the protected routes.

Source: `ProtectedRoute.checkAuth` (App.js, main copy lines 181-196).  JS:
  const sessionToken = localStorage.getItem('session_token');
  if (!sessionToken) { setIsAuthenticated(false); return; }
  try { await api.get('/auth/me'); setIsAuthenticated(true); }
  catch (error) {
    localStorage.removeItem('session_token');
    localStorage.removeItem('user');
    setIsAuthenticated(false);
  }
The state carries the two localStorage entries and the component's
`isAuthenticated` variable (`none` = still loading). -/

structure MessagesPageState where
  replyText : String
  selectedMessageId : Option String
  sending : Bool
deriving DecidableEq, Repr

structure ReplyReq where
  message_id : Option String
  content : String
deriving DecidableEq, Repr

structure SendReplyRun where
  state : MessagesPageState
  requests : List ReplyReq
  effects : List Effect
deriving DecidableEq, Repr

def handleSendReply (s : MessagesPageState) (o : Outcome) : SendReplyRun :=
  if jsTrim s.replyText = "" then
    { state := s, requests := [], effects := [.toastError "Reply cannot be empty"] }
  else
    let req : ReplyReq := ⟨s.selectedMessageId, s.replyText⟩
    match o with
    | .success =>
      { state := { replyText := "", selectedMessageId := none, sending := false }
        requests := [req]
        effects := [.toastSuccess "Reply sent!", .refetch "messages"] }
    | .failure =>
      { state := { s with sending := false }
        requests := [req]
        effects := [.toastError "Failed to send reply"] }

/-! Creating a campaign.

Source (main copy): `CampaignsPage.handleCreate` (App.js lines 378-395).  JS:
  if (!newCampaign.name) { toast.error('Campaign name is required'); return; }
  try {
    const response = await api.post('/campaigns', newCampaign);
    toast.success('Campaign created!'); ...
    navigate(`/campaigns/RESPONSEID/edit`);
  } catch (error) { toast.error('Failed to create campaign'); }
The response is modelled as `Option String`: `some id` when the POST
succeeds with a created id, `none` when it throws. -/

structure CampaignFormV1 where
  name : String
  goal_type : String
  target_persona : String
deriving DecidableEq, Repr

structure CampaignPost where
  path : String
  body : CampaignFormV1
deriving DecidableEq, Repr

structure CreateCampaignRun where
  requests : List CampaignPost
  nav : Option String
  effects : List Effect
deriving DecidableEq, Repr

def handleCreateCampaign (form : CampaignFormV1) (result : Option String) :
    CreateCampaignRun :=
  if form.name = "" then
    { requests := [], nav := none,
      effects := [.toastError "Campaign name is required"] }
  else
    match result with
    | some id =>
      { requests := [⟨"/api/campaigns", form⟩]
        nav := some ("/campaigns/" ++ id ++ "/edit")
        effects := [.toastSuccess "Campaign created!"] }
    | none =>
      { requests := [⟨"/api/campaigns", form⟩]
        nav := none
        effects := [.toastError "Failed to create campaign"] }

/-! Source (legacy copy): `CampaignsPage.handleCreate` of the older App.js
kept in the repository (LeadPersonaPanel.js lines 1169-1179).  JS:
  try {
    await api.post('/campaigns', newCampaign);
    toast.success('Campaign created!'); setShowCreate(false);
    setNewCampaign({ name: '', target_persona: '' });
    fetchCampaigns();
  } catch (error) { toast.error('Failed to create campaign'); }
No presence check and no navigation: on success the list is re-fetched. -/

structure CampaignFormLegacy where
  name : String
  target_persona : String
deriving DecidableEq, Repr

structure LegacyCampaignPost where
  path : String
  body : CampaignFormLegacy
deriving DecidableEq, Repr

structure LegacyCreateRun where
  requests : List LegacyCampaignPost
  nav : Option String
  effects : List Effect
deriving DecidableEq, Repr

def handleCreateCampaignLegacy (form : CampaignFormLegacy)
    (result : Option String) : LegacyCreateRun :=
  match result with
  | some _ =>
    { requests := [⟨"/api/campaigns", form⟩]
      nav := none
      effects := [.toastSuccess "Campaign created!", .refetch "campaigns"] }
  | none =>
    { requests := [⟨"/api/campaigns", form⟩]
      nav := none
      effects := [.toastError "Failed to create campaign"] }

/-! Adding a single lead.

Source: `LeadsPage.handleCreate` (App.js, main copy lines 535-545).  JS:
  try {
    await api.post('/leads', newLead);
    toast.success('Lead added!'); setShowCreate(false);
    setNewLead({ name: '', email: '', linkedin_url: '', company: '', title: '' });
    fetchLeads();
  } catch (error) { toast.error('Failed to add lead'); }
There is no presence check: the POST is issued for any form content. -/

structure LeadForm where
  name : String
  email : String
  linkedin_url : String
  company : String
  title : String
deriving DecidableEq, Repr

structure LeadPost where
  path : String
  body : LeadForm
deriving DecidableEq, Repr

structure CreateLeadRun where
  requests : List LeadPost
  effects : List Effect
deriving DecidableEq, Repr

def handleCreateLead (form : LeadForm) (o : Outcome) : CreateLeadRun :=
  match o with
  | .success =>
    { requests := [⟨"/api/leads", form⟩]
      effects := [.toastSuccess "Lead added!", .refetch "leads"] }
  | .failure =>
    { requests := [⟨"/api/leads", form⟩]
      effects := [.toastError "Failed to add lead"] }

/-! Default three-step sequence initialization.

Source: `initializeDefaultSteps` and `fetchCampaign` in the CampaignBuilder
(part of the sources at lines 65-150 and 45-63 of the second builder copy;
the first copy at lines 53-137 has the same guard, loop and endpoints with
slightly different variant text — variant text below follows the
second copy).  JS:
  const initializeDefaultSteps = async (campaignData) => {
    if (initializingSteps) return;
    setInitializingSteps(true);
    const channel = campaignData.goal_type;
    const defaultSteps = [ ...three steps, two variants each... ];
    try {
      for (const step of defaultSteps) {
        await api.post(`/campaigns/CAMPAIGNID/steps`, step);
      }
      ...
    } catch (error) { ... }
    setInitializingSteps(false);
  };
and in `fetchCampaign`, after a successful GET:
  if ((!campaignData.message_steps || campaignData.message_steps.length === 0)
      && !initializingSteps) {
    await initializeDefaultSteps(campaignData);
  }
`Date.now()` in the variant ids is the abstract parameter `now`.  The
request list is the sequence of POSTs the loop issues when every awaited
POST succeeds; the guard precedes the first POST, so a call with the flag
set issues none regardless of outcomes. -/

structure Variant where
  id : String
  name : String
  subject : String
  content : String
  percentage : Nat
deriving DecidableEq, Repr

structure StepPayload where
  step_number : Nat
  channel : String
  delay_days : Nat
  delay_hours : Nat
  variants : List Variant
deriving DecidableEq, Repr

structure StepPost where
  path : String
  body : StepPayload
deriving DecidableEq, Repr

def defaultSteps (channel : String) (now : Nat) : List StepPayload :=
  [ { step_number := 1, channel := channel, delay_days := 0, delay_hours := 0
      variants :=
        [ { id := "var-1a-" ++ toString now, name := "Variant A"
            subject := if channel = "email" then "Quick question, \x7b\x7bfirst_name\x7d\x7d" else ""
            content := "Hi \x7b\x7bfirst_name\x7d\x7d,\n\nI noticed your work at \x7b\x7bcompany\x7d\x7d and thought this might be relevant.\n\nBest regards"
            percentage := 50 }
        , { id := "var-1b-" ++ toString now, name := "Variant B"
            subject := if channel = "email" then "Thought of you, \x7b\x7bfirst_name\x7d\x7d" else ""
            content := "Hello \x7b\x7bfirst_name\x7d\x7d,\n\nYour role as \x7b\x7bjob_title\x7d\x7d caught my attention.\n\nCheers"
            percentage := 50 } ] }
  , { step_number := 2, channel := channel, delay_days := 3, delay_hours := 0
      variants :=
        [ { id := "var-2a-" ++ toString now, name := "Variant A"
            subject := if channel = "email" then "Following up" else ""
            content := "Hi \x7b\x7bfirst_name\x7d\x7d,\n\nJust following up on my previous message.\n\nBest"
            percentage := 50 }
        , { id := "var-2b-" ++ toString now, name := "Variant B"
            subject := if channel = "email" then "Checking in" else ""
            content := "\x7b\x7bfirst_name\x7d\x7d,\n\nWanted to check if you saw my last message.\n\nThanks"
            percentage := 50 } ] }
  , { step_number := 3, channel := channel, delay_days := 5, delay_hours := 0
      variants :=
        [ { id := "var-3a-" ++ toString now, name := "Variant A"
            subject := if channel = "email" then "Last attempt" else ""
            content := "Hi \x7b\x7bfirst_name\x7d\x7d,\n\nThis is my final follow-up.\n\nRegards"
            percentage := 50 }
        , { id := "var-3b-" ++ toString now, name := "Variant B"
            subject := if channel = "email" then "Final note" else ""
            content := "\x7b\x7bfirst_name\x7d\x7d,\n\nOne last message before I close the loop.\n\nBest"
            percentage := 50 } ] }
  ]

def initializeDefaultSteps (initializingSteps : Bool) (campaignId : String)
    (goalType : String) (now : Nat) : List StepPost :=
  if initializingSteps then []
  else
    (defaultSteps goalType now).map
      (fun st => ⟨"/api/campaigns/" ++ campaignId ++ "/steps", st⟩)

/-- The fetched campaign as read by `fetchCampaign`; `message_steps` may be
absent (`none`) or present. -/
structure CampaignData where
  id : String
  goal_type : String
  message_steps : Option (List StepPayload)
deriving Repr

/-- JS condition `!campaignData.message_steps || campaignData.message_steps.length === 0`. -/
def hasNoSteps (ms : Option (List StepPayload)) : Bool :=
  match ms with
  | none => true
  | some l => l.length == 0

/-- The step-initialization POSTs triggered by a successful `fetchCampaign`. -/
def fetchCampaignInitPosts (initializingSteps : Bool) (c : CampaignData)
    (campaignId : String) (now : Nat) : List StepPost :=
  if hasNoSteps c.message_steps then
    initializeDefaultSteps initializingSteps campaignId c.goal_type now
  else []

/-! Two handlers modelled dynamically for the error-handling and mutation
claims.

Source: `saveStep` in the CampaignBuilder (both copies, e.g. lines 175-178
of the first):
  const saveStep = async (stepIndex) => {
    // In a full implementation, this would update the specific step
    toast.success('Step saved!');
  };
Source: `fetchLeads` in the same CampaignBuilder (lines 139-146):
  try { const response = await api.get('/leads'); setLeads(response.data); }
  catch (error) { console.error('Failed to load leads'); } -/

def saveStep (stepIndex : Nat) : List StepPost × List Effect :=
  ([], [.toastSuccess "Step saved!"])

def fetchLeadsCB (o : Outcome) : List Effect :=
  match o with
  | .success => [.setFromResponse "leads"]
  | .failure => [.consoleError "Failed to load leads"]

/-! Every request path the application can issue.

Collected from every `api.get/post/patch/delete` call site in the source
files.  Most axios instances use base URL `BACKEND_URL + "/api"` with
relative paths; the V2 builder files use base URL `BACKEND_URL` with
absolute `/api/...` paths — all entries below are the resulting absolute
paths.  Interpolated identifiers are written as the placeholders ID,
LEADID, MSGID and STEPNUM; the two call sites with query strings
(`/ai-agent/usage?days=30`, `/phantombuster/import-leads?agent_id=...`)
are listed by their path component. -/
def requestPaths : List String :=
  [ "/api/auth/session-data"
  , "/api/auth/me"
  , "/api/auth/logout"
  , "/api/analytics/overview"
  , "/api/analytics/insights"
  , "/api/campaigns"
  , "/api/campaigns/ID"
  , "/api/campaigns/ID/steps"
  , "/api/campaigns/ID/schedule"
  , "/api/campaigns/ID/validate"
  , "/api/campaigns/ID/activate"
  , "/api/campaigns/ID/analytics"
  , "/api/campaigns/ID/generate-all-messages"
  , "/api/campaigns/ID/upload-product-doc"
  , "/api/campaigns/ID/preview-messages/LEADID"
  , "/api/campaigns/ID/regenerate-message"
  , "/api/campaigns/generate-message"
  , "/api/leads"
  , "/api/leads/ID"
  , "/api/leads/import"
  , "/api/leads/ID/regenerate-persona"
  , "/api/ai-agent-profiles"
  , "/api/ai-agent/config"
  , "/api/ai-agent/usage"
  , "/api/research/persona"
  , "/api/settings/integrations"
  , "/api/settings/api-keys"
  , "/api/integrations/google-sheets/connect"
  , "/api/integrations/google-sheets/sync"
  , "/api/messages"
  , "/api/messages/reply"
  , "/api/phantombuster/agents"
  , "/api/phantombuster/import-leads"
  , "/api/v2/campaigns"
  , "/api/v2/campaigns/ID"
  , "/api/v2/campaigns/ID/messages"
  , "/api/v2/campaigns/ID/steps/STEPNUM"
  , "/api/v2/campaigns/ID/steps/STEPNUM/best-practices"
  , "/api/v2/campaigns/ID/product-info/upload"
  , "/api/v2/campaigns/generate-test-messages"
  , "/api/v2/campaigns/generate-bulk-messages"
  , "/api/v2/campaigns/ID/approve-test"
  , "/api/v2/campaigns/regenerate-message/MSGID"
  , "/api/v2/campaigns/messages/MSGID"
  , "/api/v2/campaigns/ID/activate"
  ]

/-- The endpoint families named by the specification. -/
def specFamilies : List String :=
  [ "/api/campaigns", "/api/leads", "/api/messages", "/api/ai-agent-profiles"
  , "/api/analytics", "/api/settings", "/api/phantombuster"
  , "/api/research/persona" ]

/-- A path belongs to family `fam` if it is the family root itself or lies
strictly below it (`fam` followed by a slash). -/
def inFamily (fam p : String) : Bool :=
  p == fam || pathStartsWith p (fam ++ "/")

def inSpecFamilies (p : String) : Bool :=
  specFamilies.any (fun fam => inFamily fam p)

/-- Families the application additionally talks to, absent from the
specification list. -/
def extraFamilies : List String :=
  [ "/api/auth", "/api/integrations/google-sheets", "/api/ai-agent"
  , "/api/v2/campaigns" ]

def inExtraFamilies (p : String) : Bool :=
  extraFamilies.any (fun fam => inFamily fam p)

/-! Catalogue of the network-call handlers.

One entry per handler (or per inline arrow function containing a call, or
per independently guarded branch of `handleAuth`), across all source files.
Name prefixes identify the file: `App` = the main App.js copy, `AppLegacy`
= the older App.js copy kept in the repository, `CB1`/`CB1b` = the two
CampaignBuilder copies, `APM` = AIAgentProfileManager, `Studio` =
AIAgentStudio.js, `CBV2` = CampaignBuilderV2.js, `V2C` =
CampaignBuilderV2_Components, `LPP` = LeadPersonaPanel.js, `V2Page` =
CampaignsV2Page, `PBI` = PhantombusterImport, `BLE` = BulkLeadEnrichment,
`PCMP` = PerContactMessagePreview.

Fields: `callSites` is the number of `api.*` call sites in the handler body
(a call inside a loop counts once); `wrapped` is whether every call site
sits inside try/catch; `toastOnCatch` is whether the catch branch calls
`toast.error` (or, for `handleResearch`, `toast.error` inside the guarded
branch). -/

inductive HKind
  | fetch
  | mutation
  | auth
deriving DecidableEq, Repr

structure NetHandler where
  name : String
  kind : HKind
  callSites : Nat
  wrapped : Bool
  toastOnCatch : Bool
deriving DecidableEq, Repr

set_option maxHeartbeats 2000000 in
def netHandlers : List NetHandler :=
  [ ⟨"App.handleAuth.exchange", .auth, 1, true, true⟩
  , ⟨"App.handleAuth.checkExisting", .auth, 1, true, false⟩
  , ⟨"App.checkAuth", .auth, 1, true, false⟩
  , ⟨"App.handleLogout", .auth, 1, true, false⟩
  , ⟨"App.fetchOverview", .fetch, 1, true, true⟩
  , ⟨"App.fetchCampaigns", .fetch, 1, true, true⟩
  , ⟨"App.handleCreateCampaign", .mutation, 1, true, true⟩
  , ⟨"App.fetchLeads", .fetch, 1, true, true⟩
  , ⟨"App.handleCreateLead", .mutation, 1, true, true⟩
  , ⟨"App.handleUpdateLead", .mutation, 1, true, true⟩
  , ⟨"App.handleDeleteLead", .mutation, 1, true, true⟩
  , ⟨"App.handleImport", .mutation, 1, true, true⟩
  , ⟨"App.fetchInsights", .fetch, 1, true, false⟩
  , ⟨"App.generateInsights", .mutation, 1, true, true⟩
  , ⟨"App.fetchLeadsResearch", .fetch, 1, true, true⟩
  , ⟨"App.handleResearch", .mutation, 1, true, true⟩
  , ⟨"App.fetchIntegrations", .fetch, 1, true, true⟩
  , ⟨"App.fetchApiKeys", .fetch, 1, true, false⟩
  , ⟨"App.saveApiKeys", .mutation, 1, true, true⟩
  , ⟨"App.handleConnectSheets", .mutation, 1, true, true⟩
  , ⟨"App.handleSyncSheets", .mutation, 1, true, true⟩
  , ⟨"App.fetchMessages", .fetch, 1, true, true⟩
  , ⟨"App.handleSendReply", .mutation, 1, true, true⟩
  , ⟨"CB1.fetchCampaign", .fetch, 1, true, true⟩
  , ⟨"CB1.initializeDefaultSteps", .mutation, 1, true, false⟩
  , ⟨"CB1.fetchLeads", .fetch, 1, true, false⟩
  , ⟨"CB1.addStep", .mutation, 1, true, true⟩
  , ⟨"CB1.saveStep", .mutation, 0, false, false⟩
  , ⟨"CB1.setSchedule", .mutation, 1, true, true⟩
  , ⟨"CB1.validateCampaign", .mutation, 1, true, true⟩
  , ⟨"CB1.activateCampaign", .mutation, 1, true, true⟩
  , ⟨"CB1.assignLeads", .mutation, 1, true, true⟩
  , ⟨"CB1.pauseOnClick", .mutation, 1, false, false⟩
  , ⟨"CB1.fetchAnalytics", .fetch, 1, true, true⟩
  , ⟨"APM.fetchProfiles", .fetch, 1, true, false⟩
  , ⟨"APM.handleCreateProfile", .mutation, 1, true, true⟩
  , ⟨"CB1b.fetchCampaign", .fetch, 1, true, true⟩
  , ⟨"CB1b.initializeDefaultSteps", .mutation, 1, true, true⟩
  , ⟨"CB1b.fetchLeads", .fetch, 1, true, false⟩
  , ⟨"CB1b.addStep", .mutation, 1, true, true⟩
  , ⟨"CB1b.saveStep", .mutation, 0, false, false⟩
  , ⟨"CB1b.setSchedule", .mutation, 1, true, true⟩
  , ⟨"CB1b.validateCampaign", .mutation, 1, true, true⟩
  , ⟨"CB1b.activateCampaign", .mutation, 1, true, true⟩
  , ⟨"CB1b.assignLeads", .mutation, 1, true, true⟩
  , ⟨"CB1b.saveCampaignEdits", .mutation, 1, true, true⟩
  , ⟨"CB1b.generateAIMessage", .mutation, 1, true, true⟩
  , ⟨"CB1b.generateAllMessages", .mutation, 1, true, true⟩
  , ⟨"CB1b.pauseOnClick", .mutation, 1, false, false⟩
  , ⟨"CB1b.selectProfileOnClick", .mutation, 1, false, false⟩
  , ⟨"CB1b.fetchProfile", .fetch, 1, true, false⟩
  , ⟨"CB1b.handleFileUpload", .mutation, 1, true, true⟩
  , ⟨"CB1b.fetchAnalytics", .fetch, 1, true, true⟩
  , ⟨"Studio.fetchConfig", .fetch, 1, true, true⟩
  , ⟨"Studio.fetchUsage", .fetch, 1, true, false⟩
  , ⟨"Studio.saveConfig", .mutation, 1, true, true⟩
  , ⟨"CBV2.fetchCampaign", .fetch, 1, true, true⟩
  , ⟨"CBV2.fetchLeads", .fetch, 1, true, false⟩
  , ⟨"CBV2.fetchMessages", .fetch, 1, true, false⟩
  , ⟨"CBV2.handleSave", .mutation, 1, true, true⟩
  , ⟨"CBV2.handleFileUpload", .mutation, 1, true, true⟩
  , ⟨"V2C.handleStepUpdate", .mutation, 1, true, true⟩
  , ⟨"V2C.handleBestPracticesUpload", .mutation, 1, true, true⟩
  , ⟨"V2C.generateTestMessages", .mutation, 1, true, true⟩
  , ⟨"V2C.generateBulkMessages", .mutation, 1, true, true⟩
  , ⟨"V2C.approveTestPhase", .mutation, 1, true, true⟩
  , ⟨"V2C.regenerateMessage", .mutation, 1, true, true⟩
  , ⟨"V2C.updateMessage", .mutation, 1, true, true⟩
  , ⟨"V2C.handleScheduleSave", .mutation, 1, true, true⟩
  , ⟨"V2C.handleActivate", .mutation, 1, true, true⟩
  , ⟨"LPP.handleRegeneratePersona", .mutation, 1, true, true⟩
  , ⟨"LPP.handleSavePersona", .mutation, 1, true, true⟩
  , ⟨"AppLegacy.handleAuth.exchange", .auth, 1, true, true⟩
  , ⟨"AppLegacy.handleAuth.checkExisting", .auth, 1, true, false⟩
  , ⟨"AppLegacy.checkAuth", .auth, 1, true, false⟩
  , ⟨"AppLegacy.handleLogout", .auth, 1, true, false⟩
  , ⟨"AppLegacy.fetchOverview", .fetch, 1, true, true⟩
  , ⟨"AppLegacy.fetchCampaigns", .fetch, 1, true, true⟩
  , ⟨"AppLegacy.handleCreateCampaign", .mutation, 1, true, true⟩
  , ⟨"AppLegacy.fetchLeads", .fetch, 1, true, true⟩
  , ⟨"AppLegacy.handleCreateLead", .mutation, 1, true, true⟩
  , ⟨"AppLegacy.handleImport", .mutation, 1, true, true⟩
  , ⟨"AppLegacy.fetchInsights", .fetch, 1, true, false⟩
  , ⟨"AppLegacy.generateInsights", .mutation, 1, true, true⟩
  , ⟨"AppLegacy.fetchLeadsResearch", .fetch, 1, true, true⟩
  , ⟨"AppLegacy.handleResearch", .mutation, 1, true, true⟩
  , ⟨"V2Page.fetchCampaigns", .fetch, 1, true, true⟩
  , ⟨"V2Page.createCampaign", .mutation, 1, true, true⟩
  , ⟨"V2Page.deleteCampaign", .mutation, 1, true, true⟩
  , ⟨"PBI.fetchAgents", .fetch, 1, true, true⟩
  , ⟨"PBI.handleImport", .mutation, 1, true, true⟩
  , ⟨"BLE.handleEnrich", .mutation, 1, true, true⟩
  , ⟨"PCMP.fetchMessages", .fetch, 1, true, true⟩
  , ⟨"PCMP.regenerateStep", .mutation, 1, true, true⟩
  ]

/-- The handlers whose catch branch does not show a toast (console log or
silent session cleanup instead), plus the call sites outside any try/catch
(the two inline pause buttons and the inline agent-profile link). -/
def noToastExceptions : List String :=
  [ "App.handleAuth.checkExisting", "App.checkAuth", "App.handleLogout"
  , "App.fetchInsights", "App.fetchApiKeys"
  , "CB1.initializeDefaultSteps", "CB1.fetchLeads", "CB1.pauseOnClick"
  , "APM.fetchProfiles"
  , "CB1b.fetchLeads", "CB1b.pauseOnClick", "CB1b.selectProfileOnClick"
  , "CB1b.fetchProfile"
  , "Studio.fetchUsage"
  , "CBV2.fetchLeads", "CBV2.fetchMessages"
  , "AppLegacy.handleAuth.checkExisting", "AppLegacy.checkAuth"
  , "AppLegacy.handleLogout", "AppLegacy.fetchInsights"
  ]

/-- Sample handler entries used by the witnesses below. -/
def hFetchCampaigns : NetHandler := ⟨"App.fetchCampaigns", .fetch, 1, true, true⟩

def hCreateCampaign : NetHandler := ⟨"App.handleCreateCampaign", .mutation, 1, true, true⟩

/-! ## Theorems for the claims -/

/-- C2 counterexample: the `fetchLeads` handler of the CampaignBuilder (cited
by the claim) wraps its GET in try/catch but its catch branch only logs to
the console — a failing request produces no toast. -/
theorem c2_counterexample :
    fetchLeadsCB .failure = [.consoleError "Failed to load leads"] ∧
    ∀ e ∈ fetchLeadsCB .failure, isToast e = false :=
  ⟨rfl, by decide⟩

/-- C2 (amended): every network-call handler wraps its calls in try/catch and
toasts on failure, except the enumerated ones: the session-check/logout
cleanup handlers, the background fetch handlers that log to the console, and
three inline button handlers (two pause buttons, one agent-profile link)
whose calls sit outside any try/catch. -/
theorem c2_amended :
    ∀ h ∈ netHandlers, 1 ≤ h.callSites →
      (h.wrapped = true ∧ h.toastOnCatch = true) ∨
        h.name ∈ noToastExceptions := by decide

/-- C2 witness: the campaigns-list fetch handler is in the catalogue, issues
a call and toasts on failure. -/
theorem c2_amended_witness :
    hFetchCampaigns ∈ netHandlers ∧ 1 ≤ hFetchCampaigns.callSites ∧
    ((hFetchCampaigns.wrapped = true ∧ hFetchCampaigns.toastOnCatch = true) ∨
      hFetchCampaigns.name ∈ noToastExceptions) :=
  ⟨by decide, by decide, c2_amended hFetchCampaigns (by decide) (by decide)⟩

/-- C3 counterexample: the legacy create-campaign handler (cited by the
claim), submitted with a non-empty name and a successful response carrying
the created id, issues its POST but navigates nowhere — in particular not to
the edit route. -/
theorem c3_counterexample :
    (handleCreateCampaignLegacy ⟨"CTO Outreach Q1", "CTOs"⟩
        (some "c1")).requests.length = 1 ∧
    (handleCreateCampaignLegacy ⟨"CTO Outreach Q1", "CTOs"⟩
        (some "c1")).nav = none :=
  ⟨rfl, rfl⟩

/-- C3 (amended): the main create-campaign handler with a non-empty name
issues exactly one POST to the campaigns endpoint whose body carries the
entered name and navigates to `/campaigns/ID/edit` on success; the legacy
copy issues the same single POST but never navigates (it re-fetches the
list instead). -/
theorem c3_amended :
    (∀ (f : CampaignFormV1) (id : String), f.name ≠ "" →
      (handleCreateCampaign f (some id)).requests = [⟨"/api/campaigns", f⟩] ∧
      (handleCreateCampaign f (some id)).nav =
        some ("/campaigns/" ++ id ++ "/edit")) ∧
    (∀ (f : CampaignFormLegacy) (r : Option String),
      (handleCreateCampaignLegacy f r).requests = [⟨"/api/campaigns", f⟩] ∧
      (handleCreateCampaignLegacy f r).nav = none) := by
  constructor
  · intro f id h
    unfold handleCreateCampaign
    rw [if_neg h]
    exact ⟨rfl, rfl⟩
  · intro f r
    cases r <;> exact ⟨rfl, rfl⟩

/-- C3 witness: a concrete non-empty-name submission navigating to the edit
route of the created campaign. -/
theorem c3_amended_witness :
    ("CTO Outreach Q1" : String) ≠ "" ∧
    (handleCreateCampaign ⟨"CTO Outreach Q1", "email", ""⟩ (some "c1")).nav =
      some "/campaigns/c1/edit" :=
  ⟨by decide, (c3_amended.1 ⟨"CTO Outreach Q1", "email", ""⟩ "c1" (by decide)).2⟩

/-- C4 counterexample: the application requests `/api/auth/me`, which belongs
to none of the endpoint families listed by the specification. -/
theorem c4_counterexample :
    "/api/auth/me" ∈ requestPaths ∧ inSpecFamilies "/api/auth/me" = false :=
  ⟨by decide, rfl⟩

/-- C4 (amended): every request path of the application lies in a family
listed by the specification or in one of the four additional families
`/api/auth`, `/api/integrations/google-sheets`, `/api/ai-agent` and
`/api/v2/campaigns`. -/
theorem c4_amended :
    ∀ p ∈ requestPaths, inSpecFamilies p = true ∨ inExtraFamilies p = true := by
  decide

/-- C4 witness: the steps endpoint is requested and lies in the specified
campaigns family. -/
theorem c4_amended_witness :
    "/api/campaigns/ID/steps" ∈ requestPaths ∧
    (inSpecFamilies "/api/campaigns/ID/steps" = true ∨
      inExtraFamilies "/api/campaigns/ID/steps" = true) :=
  ⟨by decide, c4_amended "/api/campaigns/ID/steps" (by decide)⟩

/-- C5: a call of `initializeDefaultSteps` while the `initializingSteps`
flag is set issues no POSTs at all; a fetched campaign whose
`message_steps` are present and non-empty triggers no initialization POSTs;
and an unguarded call issues exactly the three POSTs to the steps
endpoint. -/
theorem c5_theorem :
    (∀ (cid gt : String) (now : Nat),
      initializeDefaultSteps true cid gt now = []) ∧
    (∀ (flag : Bool) (c : CampaignData) (cid : String) (now : Nat)
        (steps : List StepPayload),
      c.message_steps = some steps → steps ≠ [] →
      fetchCampaignInitPosts flag c cid now = []) ∧
    (∀ (cid gt : String) (now : Nat),
      (initializeDefaultSteps false cid gt now).map StepPost.path =
        [ "/api/campaigns/" ++ cid ++ "/steps"
        , "/api/campaigns/" ++ cid ++ "/steps"
        , "/api/campaigns/" ++ cid ++ "/steps" ]) := by
  refine ⟨fun cid gt now => rfl, ?_, fun cid gt now => rfl⟩
  intro flag c cid now steps h hne
  unfold fetchCampaignInitPosts
  rw [h]
  cases steps with
  | nil => exact absurd rfl hne
  | cons s rest => rfl

/-- C5 witness: a campaign that already carries a non-empty step list
receives no initialization POSTs from `fetchCampaign`. -/
theorem c5_theorem_witness :
    (⟨"c1", "email", some (defaultSteps "email" 7)⟩ : CampaignData).message_steps
        = some (defaultSteps "email" 7) ∧
    defaultSteps "email" 7 ≠ [] ∧
    fetchCampaignInitPosts false ⟨"c1", "email", some (defaultSteps "email" 7)⟩
        "c1" 7 = [] :=
  ⟨rfl, by decide,
    c5_theorem.2.1 false ⟨"c1", "email", some (defaultSteps "email" 7)⟩ "c1" 7
      (defaultSteps "email" 7) rfl (by decide)⟩

/-- C6 counterexample: the add-lead form handler (cited by the claim) issues
its POST even when the required name field is empty — no presence check, no
error signalled. -/
theorem c6_counterexample :
    (handleCreateLead ⟨"", "", "", "", ""⟩ .success).requests =
      [⟨"/api/leads", ⟨"", "", "", "", ""⟩⟩] := rfl

/-- C6 (amended): the main create-campaign handler and the send-reply
handler do enforce a presence check — empty required field means no request
and an error toast — but the add-lead handler issues its POST for any form
content, empty name included. -/
theorem c6_amended :
    (∀ (f : CampaignFormV1) (r : Option String), f.name = "" →
      (handleCreateCampaign f r).requests = [] ∧
      (handleCreateCampaign f r).effects =
        [.toastError "Campaign name is required"]) ∧
    (∀ (s : MessagesPageState) (o : Outcome), jsTrim s.replyText = "" →
      (handleSendReply s o).requests = [] ∧
      (handleSendReply s o).effects = [.toastError "Reply cannot be empty"]) ∧
    (∀ (f : LeadForm) (o : Outcome),
      (handleCreateLead f o).requests.length = 1) := by
  refine ⟨?_, ?_, fun f o => ?_⟩
  · intro f r h
    unfold handleCreateCampaign
    rw [if_pos h]
    exact ⟨rfl, rfl⟩
  · intro s o h
    unfold handleSendReply
    rw [if_pos h]
    exact ⟨rfl, rfl⟩
  · cases o <;> rfl

/-- C6 witness: concrete empty-field submissions — the guarded handlers
issue nothing, while the whitespace-only reply is rejected. -/
theorem c6_amended_witness :
    ((⟨"", "email", ""⟩ : CampaignFormV1).name = "" ∧
      (handleCreateCampaign ⟨"", "email", ""⟩ none).requests = []) ∧
    (jsTrim "  " = "" ∧
      (handleSendReply ⟨"  ", none, false⟩ .success).requests = []) :=
  ⟨⟨rfl, (c6_amended.1 ⟨"", "email", ""⟩ none rfl).1⟩,
    ⟨by decide, (c6_amended.2.1 ⟨"  ", none, false⟩ .success (by decide)).1⟩⟩

/-- C7 counterexample: `saveStep` (cited by the claim) is a 'save' user
action that issues no HTTP request at all — it only shows a success
toast. -/
theorem c7_counterexample :
    (saveStep 0).1 = [] ∧ (saveStep 0).2 = [.toastSuccess "Step saved!"] :=
  ⟨rfl, rfl⟩

/-- C7 (amended): every user-action mutation handler in the catalogue
contains at least one backend call site, except the two `saveStep` stubs,
which contain none and merely toast. -/
theorem c7_amended :
    ∀ h ∈ netHandlers, h.kind = .mutation →
      1 ≤ h.callSites ∨ h.name = "CB1.saveStep" ∨ h.name = "CB1b.saveStep" := by
  decide

/-- C7 witness: the main create-campaign handler is a mutation handler with
a call site. -/
theorem c7_amended_witness :
    hCreateCampaign ∈ netHandlers ∧ hCreateCampaign.kind = .mutation ∧
    (1 ≤ hCreateCampaign.callSites ∨ hCreateCampaign.name = "CB1.saveStep" ∨
      hCreateCampaign.name = "CB1b.saveStep") :=
  ⟨by decide, rfl, c7_amended hCreateCampaign (by decide) rfl⟩

/-- C8 counterexample: on an import text that begins with a newline, the
handler (which trims the whole text first) posts only the data row, while
the rows described by the claim (drop the first line of the text as given)
would also include the header row. -/
theorem c8_counterexample :
    handleImportRows "\nname,email\nJo,jo@x.com" =
      [⟨"Jo", "jo@x.com", "", "", ""⟩] ∧
    specImportRows "\nname,email\nJo,jo@x.com" =
      [⟨"name", "email", "", "", ""⟩, ⟨"Jo", "jo@x.com", "", "", ""⟩] :=
  ⟨rfl, rfl⟩

/-- C8 (amended): for every import text, the handler posts exactly the rows
obtained — from the whitespace-trimmed import text — by dropping the first
(header) line, splitting each remaining line on commas with fields trimmed
and mapped positionally, and keeping precisely the rows with non-empty
name, in input order. -/
theorem c8_amended :
    ∀ t : String, handleImportRows t = specImportRows (jsTrim t) :=
  fun _ => rfl

/-! Supporting lemmas for the toggle claim. -/

lemma mem_filter_ne (l : List String) (a x : String) :
    x ∈ l.filter (fun id => id != a) ↔ x ∈ l ∧ x ≠ a := by
  simp [List.mem_filter]

lemma filter_ne_of_not_mem (l : List String) (a : String) (h : a ∉ l) :
    l.filter (fun id => id != a) = l := by
  refine List.filter_eq_self.mpr fun x hx => ?_
  simp only [bne_iff_ne, ne_eq, decide_eq_true_eq]
  exact fun e => h (e ▸ hx)

/-- C9: toggling a lead id flips exactly that id's membership, leaves every
other id's membership unchanged, and toggling twice restores the original
set of selected ids. -/
theorem c9_theorem (prev : List String) (a : String) (hnd : prev.Nodup) :
    (a ∈ toggleLead prev a ↔ a ∉ prev) ∧
    (∀ x, x ≠ a → (x ∈ toggleLead prev a ↔ x ∈ prev)) ∧
    (∀ x, x ∈ toggleLead (toggleLead prev a) a ↔ x ∈ prev) := by
  by_cases hmem : a ∈ prev
  · have hc : prev.contains a = true := by
      simpa using hmem
    have h1 : toggleLead prev a = prev.filter (fun id => id != a) := by
      unfold toggleLead
      rw [if_pos hc]
    have hnotmem : a ∉ prev.filter (fun id => id != a) := by
      rw [mem_filter_ne]
      exact fun hh => hh.2 rfl
    have hc2 : (prev.filter (fun id => id != a)).contains a = false := by
      simpa using hnotmem
    have h2 : toggleLead (prev.filter (fun id => id != a)) a =
        prev.filter (fun id => id != a) ++ [a] := by
      unfold toggleLead
      rw [if_neg (by simp [hc2])]
    refine ⟨?_, fun x hx => ?_, fun x => ?_⟩
    · rw [h1]
      simp [hnotmem, hmem]
    · rw [h1, mem_filter_ne]
      exact ⟨fun hh => hh.1, fun hh => ⟨hh, hx⟩⟩
    · rw [h1, h2, List.mem_append, mem_filter_ne]
      constructor
      · rintro (⟨hx, _⟩ | hx)
        · exact hx
        · simp only [List.mem_singleton] at hx
          exact hx ▸ hmem
      · intro hx
        by_cases hxa : x = a
        · exact Or.inr (by simp [hxa])
        · exact Or.inl ⟨hx, hxa⟩
  · have h1 : toggleLead prev a = prev ++ [a] := by
      unfold toggleLead
      rw [if_neg (by simpa using hmem)]
    have hc2 : (prev ++ [a]).contains a = true := by
      simp
    have h2 : toggleLead (prev ++ [a]) a =
        (prev ++ [a]).filter (fun id => id != a) := by
      unfold toggleLead
      rw [if_pos hc2]
    have h3 : (prev ++ [a]).filter (fun id => id != a) = prev := by
      rw [List.filter_append, filter_ne_of_not_mem prev a hmem]
      simp
    refine ⟨?_, fun x hx => ?_, fun x => ?_⟩
    · rw [h1]
      simp [hmem]
    · rw [h1, List.mem_append]
      simp [hx]
    · rw [h1, h2, h3]

/-- C9 witness: the toggle properties at a concrete duplicate-free
selection. -/
theorem c9_theorem_witness :
    (["a", "b"] : List String).Nodup ∧
    (("c" ∈ toggleLead ["a", "b"] "c" ↔ "c" ∉ (["a", "b"] : List String)) ∧
      (∀ x, x ≠ "c" → (x ∈ toggleLead ["a", "b"] "c" ↔ x ∈ (["a", "b"] : List String))) ∧
      (∀ x, x ∈ toggleLead (toggleLead ["a", "b"] "c") "c" ↔
        x ∈ (["a", "b"] : List String))) :=
  ⟨by decide, c9_theorem ["a", "b"] "c" (by decide)⟩

/-! Supporting lemmas for the grouping claim. -/

lemma groupOf_insertMsg (acc : List (String × List Message)) (m : Message)
    (k : String) :
    groupOf (insertMsg acc m) k =
      if k = m.lead_id then groupOf acc k ++ [m] else groupOf acc k := by
  induction acc with
  | nil =>
    by_cases h : m.lead_id = k
    · subst h
      simp [insertMsg, groupOf]
    · have h2 : ¬(k = m.lead_id) := fun hh => h hh.symm
      simp [insertMsg, groupOf, h, h2]
  | cons hd tl ih =>
    obtain ⟨k', g⟩ := hd
    by_cases h1 : k' = m.lead_id
    · subst h1
      by_cases h2 : m.lead_id = k
      · subst h2
        simp [insertMsg, groupOf]
      · have h3 : ¬(k = m.lead_id) := fun hh => h2 hh.symm
        simp [insertMsg, groupOf, h2, h3]
    · by_cases h2 : k' = k
      · have h3 : ¬(k = m.lead_id) := fun hh => h1 (h2.trans hh)
        simp [insertMsg, groupOf, h1, h2, h3]
      · simp [insertMsg, groupOf, h1, h2, ih]

lemma groupOf_foldl (msgs : List Message) (acc : List (String × List Message))
    (k : String) :
    groupOf (msgs.foldl insertMsg acc) k =
      groupOf acc k ++ msgs.filter (fun m => m.lead_id == k) := by
  induction msgs generalizing acc with
  | nil => simp
  | cons m rest ih =>
    rw [List.foldl_cons, ih, groupOf_insertMsg]
    by_cases h : k = m.lead_id
    · simp [List.filter_cons, h, List.append_assoc]
    · have : ¬(m.lead_id == k) = true := by
        simpa using fun hh => h hh.symm
      simp [List.filter_cons, h, this]

lemma flatten_insertMsg (acc : List (String × List Message)) (m : Message) :
    ((insertMsg acc m).map Prod.snd).flatten.Perm
      ((acc.map Prod.snd).flatten ++ [m]) := by
  induction acc with
  | nil => simp [insertMsg]
  | cons hd tl ih =>
    obtain ⟨k, g⟩ := hd
    by_cases h : k = m.lead_id
    · subst h
      simp only [insertMsg, eq_self_iff_true, if_true, List.map_cons,
        List.flatten_cons]
      rw [List.append_assoc, List.append_assoc]
      exact List.Perm.append_left g List.perm_append_comm
    · simp only [insertMsg, if_neg h, List.map_cons, List.flatten_cons]
      rw [List.append_assoc]
      exact List.Perm.append_left g ih

lemma flatten_foldl (msgs : List Message) (acc : List (String × List Message)) :
    ((msgs.foldl insertMsg acc).map Prod.snd).flatten.Perm
      ((acc.map Prod.snd).flatten ++ msgs) := by
  induction msgs generalizing acc with
  | nil => simp
  | cons m rest ih =>
    rw [List.foldl_cons]
    refine (ih (insertMsg acc m)).trans ?_
    refine (List.Perm.append_right rest (flatten_insertMsg acc m)).trans ?_
    rw [List.append_assoc, List.singleton_append]

lemma keys_insertMsg (acc : List (String × List Message)) (m : Message) :
    (insertMsg acc m).map Prod.fst =
      if m.lead_id ∈ acc.map Prod.fst then acc.map Prod.fst
      else acc.map Prod.fst ++ [m.lead_id] := by
  induction acc with
  | nil => simp [insertMsg]
  | cons hd tl ih =>
    obtain ⟨k, g⟩ := hd
    by_cases h : k = m.lead_id
    · simp [insertMsg, h]
    · by_cases h2 : m.lead_id ∈ tl.map Prod.fst
      · simp [insertMsg, h, Ne.symm h, h2, ih]
      · simp [insertMsg, h, Ne.symm h, h2, ih]

lemma keysNodup_foldl (msgs : List Message)
    (acc : List (String × List Message))
    (hacc : (acc.map Prod.fst).Nodup) :
    ((msgs.foldl insertMsg acc).map Prod.fst).Nodup := by
  induction msgs generalizing acc with
  | nil => exact hacc
  | cons m rest ih =>
    rw [List.foldl_cons]
    refine ih (insertMsg acc m) ?_
    rw [keys_insertMsg]
    by_cases h : m.lead_id ∈ acc.map Prod.fst
    · simpa [h] using hacc
    · simp [h, List.nodup_append, hacc]

/-- C10: the grouping places each message in exactly one group — the one
keyed by its `lead_id`, whose content is precisely the input messages with
that lead id in their original relative order; the groups concatenate to a
permutation of the input, and the group keys are pairwise distinct. -/
theorem c10_theorem (msgs : List Message) :
    (∀ k, groupOf (messagesByLead msgs) k =
      msgs.filter (fun m => m.lead_id == k)) ∧
    ((messagesByLead msgs).map Prod.snd).flatten.Perm msgs ∧
    ((messagesByLead msgs).map Prod.fst).Nodup := by
  refine ⟨fun k => ?_, ?_, ?_⟩
  · simpa [messagesByLead, groupOf] using groupOf_foldl msgs [] k
  · simpa [messagesByLead] using flatten_foldl msgs []
  · exact keysNodup_foldl msgs [] (by simp)

end OmniReach
